import Mathlib

/-!
Shallow embedding of the question dispatcher of `app.py`
(class `CSVDataAnalyzer`), together with proofs checking the
natural-language specification against it.

Modelling conventions:
* a pandas `DataFrame` is a `Dataset`: an ordered list of named columns,
  each either numeric (`int64`/`float64`, cells are `Option ℚ`, `none`
  standing for `NaN`) or object (`Option String`);
* exact rational arithmetic stands for float arithmetic; Pearson
  correlations and standard deviations, which involve square roots,
  live in `ℝ`;
* plotly figures are represented by `Chart` descriptors recording the
  chart kind, the columns involved and the title;
* Python exceptions are modelled with `Except PyErr`; the only
  exception the dispatcher itself can raise is the `UnboundLocalError`
  on `user_col` in `analyze_max_min_questions` (see `C5` below);
* `\x27` in string literals is the ASCII apostrophe.
-/

namespace CSVApp

/-- Models `Char` lowercasing as done by Python `str.lower` on ASCII
(all dispatcher keywords and the questions of the claims are ASCII). -/
def charLower (c : Char) : Char :=
  if 'A' ≤ c ∧ c ≤ 'Z' then Char.ofNat (c.toNat + 32) else c

/-- Models Python `str.lower` (ASCII). -/
def lowerStr (s : String) : String := String.mk (s.data.map charLower)

/-- Substring test on character lists: `pat` occurs inside the list. -/
def infixAux (pat : List Char) : List Char → Bool
  | [] => pat.isEmpty
  | c :: rest => pat.isPrefixOf (c :: rest) || infixAux pat rest

/-- Models the Python substring test `pat in s`. -/
def substrB (pat s : String) : Bool := infixAux pat.data s.data

/-- Models `any(word in s for word in kws)`. -/
def kwAny (kws : List String) (s : String) : Bool := kws.any (fun w => substrB w s)

/-- A column of the `DataFrame`: numeric (`int64` when `isInt`, else
`float64`; `none` cells model `NaN`) or object dtype. -/
inductive ColData where
  | num (isInt : Bool) (vals : List (Option ℚ))
  | obj (vals : List (Option String))
deriving DecidableEq

/-- Number of cells of a column. -/
def colLen : ColData → Nat
  | .num _ vals => vals.length
  | .obj vals => vals.length

/-- The dtype shown by pandas for a column. -/
def dtypeStr : ColData → String
  | .num true _ => "int64"
  | .num false _ => "float64"
  | .obj _ => "object"

/-- The in-memory tabular dataset `self.df`: ordered named columns. -/
structure Dataset where
  cols : List (String × ColData)
deriving DecidableEq

/-- Models `len(self.df)` (the row count; the length of the first
column — all columns of a well-formed frame have the same length). -/
def Dataset.nrows (df : Dataset) : Nat :=
  match df.cols with
  | [] => 0
  | c :: _ => colLen c.2

/-- All columns have the row count of the frame (pandas invariant). -/
def Dataset.wfb (df : Dataset) : Bool :=
  df.cols.all (fun c => colLen c.2 == df.nrows)

/-- Models `df[col]`: the first column with the given name. -/
def lookupCol (df : Dataset) (name : String) : Option ColData :=
  (df.cols.find? (fun c => c.1 == name)).map (fun c => c.2)

/-- Models `df.select_dtypes` with the number dtypes: name and cells of
every numeric column, in column order. -/
def numericCols (df : Dataset) : List (String × List (Option ℚ)) :=
  df.cols.filterMap (fun c =>
    match c.2 with
    | .num _ vals => some (c.1, vals)
    | .obj _ => none)

/-- Models `df.select_dtypes` with the object dtype. -/
def objCols (df : Dataset) : List (String × List (Option String)) :=
  df.cols.filterMap (fun c =>
    match c.2 with
    | .obj vals => some (c.1, vals)
    | .num _ _ => none)

/-- Count of null (`NaN`) cells, as `df[col].isnull().sum()`. -/
def nullCount : ColData → Nat
  | .num _ vals => vals.countP (fun v => v.isNone)
  | .obj vals => vals.countP (fun v => v.isNone)

/-- Models `df[col].nunique()`: distinct non-null values. -/
def nunique : ColData → Nat
  | .num _ vals => (vals.filterMap id).dedup.length
  | .obj vals => (vals.filterMap id).dedup.length

/-- Models `series.max()` (`skipna=True`: `none` on an empty or
all-`NaN` column, where pandas yields `NaN`). -/
def colMax (vals : List (Option ℚ)) : Option ℚ :=
  (vals.filterMap id).foldl
    (fun acc x => match acc with | none => some x | some m => some (max m x)) none

/-- Models `series.min()` (`skipna=True`). -/
def colMin (vals : List (Option ℚ)) : Option ℚ :=
  (vals.filterMap id).foldl
    (fun acc x => match acc with | none => some x | some m => some (min m x)) none

/-- Number of rows selected by `df[df[col] == v]`: pandas equality with
`NaN` is always false, so a `none` never matches (also when `v` itself
is the `NaN` produced by `max()` on an empty column). -/
def countEqRows (vals : List (Option ℚ)) (v : Option ℚ) : Nat :=
  match v with
  | none => 0
  | some m => vals.countP (fun x => x == some m)

/-- Index of the first row selected by `df[df[col] == v]`
(`.iloc[0]` of the filtered frame). -/
def firstEqIdx (vals : List (Option ℚ)) (v : Option ℚ) : Nat :=
  match v with
  | none => 0
  | some m => vals.findIdx (fun x => x == some m)

/-- Models `series.mean()` (`skipna=True`; `none` is the `NaN` pandas
returns when no value is present). -/
def meanQ (vals : List (Option ℚ)) : Option ℚ :=
  let xs := vals.filterMap id
  if xs.isEmpty then none else some (xs.sum / (xs.length : ℚ))

/-- Models `series.sum()` (`skipna=True`; pandas returns `0.0` on an
empty column). -/
def sumQ (vals : List (Option ℚ)) : ℚ := (vals.filterMap id).sum

/-- Stable insertion into an ascending list (helper for sorting). -/
def insertAsc (a : ℚ) : List ℚ → List ℚ
  | [] => [a]
  | b :: l => if a ≤ b then a :: b :: l else b :: insertAsc a l

/-- Ascending sort of the non-null values (helper for the median and
the quantiles pandas computes). -/
def sortQ (l : List ℚ) : List ℚ := l.foldr insertAsc []

/-- Linearly interpolated quantile of a sorted non-empty list: the
linear interpolation rule used by `series.median`, `quantile` and
`describe`. -/
def quantileLin (p : ℚ) (xs : List ℚ) : ℚ :=
  let n := xs.length
  let h := p * ((n : ℚ) - 1)
  let lo := (⌊h⌋).toNat
  let xlo := xs.getD lo 0
  let xhi := xs.getD (lo + 1) xlo
  xlo + (h - (lo : ℚ)) * (xhi - xlo)

/-- Models `series.median()` (`none` is the pandas `NaN` for no data). -/
def medianQ (vals : List (Option ℚ)) : Option ℚ :=
  let xs := sortQ (vals.filterMap id)
  if xs.isEmpty then none else some (quantileLin (1/2) xs)

/-- Sample variance (divisor `n - 1`), the `ddof=1` default of
`series.std()` and `describe()`. Only used with at least two values. -/
def sampleVarQ (vals : List (Option ℚ)) : ℚ :=
  let xs := vals.filterMap id
  let n := xs.length
  let m := xs.sum / (n : ℚ)
  (xs.map (fun x => (x - m) ^ 2)).sum / ((n : ℚ) - 1)

/-- Models `series.std()`: sample standard deviation (`ddof=1`), `NaN`
(`none`) when fewer than two values are present. -/
noncomputable def stdR (vals : List (Option ℚ)) : Option ℝ :=
  if (vals.filterMap id).length < 2 then none
  else some (Real.sqrt ((sampleVarQ vals : ℚ) : ℝ))

/-- Digits of a natural number grouped in threes from the right
(helper for the `{:,}` thousands format). -/
def chunks3 : List Char → List (List Char)
  | a :: b :: c :: d :: rest => [a, b, c] :: chunks3 (d :: rest)
  | [] => []
  | l => [l]

/-- Models the Python `{:,}` format for a natural number. -/
def commaGroups (n : Nat) : String :=
  String.mk (List.intercalate [','] (((chunks3 (toString n).data.reverse).map List.reverse).reverse))

/-- Two-digit zero padding (helper for fixed-point formats). -/
def pad2 (n : Nat) : String :=
  if n < 10 then "0" ++ toString n else toString n

/-- Three-digit zero padding (helper for the `.3f` format). -/
def pad3 (n : Nat) : String :=
  if n < 100 then "0" ++ pad2 n else toString n

/-- Renders `n` hundredths as a fixed-point decimal with two digits:
the final step of the `{:.2f}` format. -/
def fmtCentiInt (n : Int) : String :=
  (if n < 0 then "-" else "") ++ toString (n.natAbs / 100) ++ "." ++ pad2 (n.natAbs % 100)

/-- Renders `n` thousandths with three digits: the final step of the
`{:.3f}` format. -/
def fmtMilliInt (n : Int) : String :=
  (if n < 0 then "-" else "") ++ toString (n.natAbs / 1000) ++ "." ++ pad3 (n.natAbs % 1000)

/-- Renders `n` hundredths with thousands separators: the final step of
the `{:,.2f}` format. -/
def fmtCommaCentiInt (n : Int) : String :=
  (if n < 0 then "-" else "") ++ commaGroups (n.natAbs / 100) ++ "." ++ pad2 (n.natAbs % 100)

/-- Models the Python `{:.2f}` format on an exact rational (rounding to
the nearest hundredth; the values formatted by the claims are exact, so
the float half-even tie rule never differs here). -/
def fmt2 (q : ℚ) : String := fmtCentiInt (round (q * 100))

/-- Models `{:.2f}` on a possibly-`NaN` value (`f"{nan:.2f}"` is `"nan"`). -/
def fmt2Opt (v : Option ℚ) : String :=
  match v with
  | none => "nan"
  | some q => fmt2 q

/-- Models the Python `{:,.2f}` format. -/
def fmtComma2 (q : ℚ) : String := fmtCommaCentiInt (round (q * 100))

/-- Models the Python `{:.3f}` format on a real value. -/
noncomputable def fmt3R (x : ℝ) : String := fmtMilliInt (round (x * 1000))

/-- Models `{:.2f}` on a real value. -/
noncomputable def fmt2R (x : ℝ) : String := fmtCentiInt (round (x * 100))

/-- Models `{:.2f}` on a possibly-`NaN` real value. -/
noncomputable def fmt2ROpt (v : Option ℝ) : String :=
  match v with
  | none => "nan"
  | some x => fmt2R x

/-- Models Python `str()` of a numeric cell: `str` of an `int64` value
prints without a decimal point, of a `float64` integral value with
`.0`. (Non-integral rationals, which no claim exercises, are rendered
as fractions.) -/
def strNum (isInt : Bool) (q : ℚ) : String :=
  if q.den = 1 then
    (if isInt then toString q.num else toString q.num ++ ".0")
  else toString q.num ++ "/" ++ toString q.den

/-- Models `str()` of a possibly-`NaN` numeric cell (`str(nan) = "nan"`). -/
def strOptNum (isInt : Bool) (v : Option ℚ) : String :=
  match v with
  | none => "nan"
  | some q => strNum isInt q

/-- Models `str()` of the cell `i` of a column (entity display in the
max/min analysis). -/
def cellStr (c : Option ColData) (i : Nat) : String :=
  match c with
  | none => ""
  | some (.obj vals) =>
      match vals.getD i none with
      | some s => s
      | none => "nan"
  | some (.num isInt vals) => strOptNum isInt (vals.getD i none)

/-- A plotly figure, abstracted to the chart kind, the columns used and
the title (`px.bar`, `px.histogram`, `px.histogram(marginal="box")`,
`px.imshow` of the correlation matrix). -/
inductive Chart where
  | bar (x y title : String)
  | histogram (x title : String)
  | histogramBox (x title : String)
  | heatmap (title : String)
deriving DecidableEq

/-- The Python exceptions the dispatcher can raise. -/
inductive PyErr where
  | unboundLocal (name : String)
deriving DecidableEq

/-- Equality of possibly-raising outcomes is decidable (used to
evaluate the dispatcher on concrete inputs). -/
instance instDecEqExcept {ε α : Type} [DecidableEq ε] [DecidableEq α] :
    DecidableEq (Except ε α) := fun x y =>
  match x, y with
  | .ok a, .ok b =>
      if h : a = b then .isTrue (congrArg Except.ok h)
      else .isFalse (fun hh => h (Except.ok.inj hh))
  | .error a, .error b =>
      if h : a = b then .isTrue (congrArg Except.error h)
      else .isFalse (fun hh => h (Except.error.inj hh))
  | .ok _, .error _ => .isFalse (fun hh => Except.noConfusion hh)
  | .error _, .ok _ => .isFalse (fun hh => Except.noConfusion hh)

/-- The `(answer, visualizations)` pair every analysis method returns:
a Markdown text and either `None` or a list of figures. -/
abbrev AnalysisResult := String × Option (List Chart)

/-- The keyword lists of `analyze_question`, in source order
(`app.py` lines 87-124). -/
def maxKeywords : List String := ["most", "highest", "top", "maximum", "max"]

/-- Minimum-analysis keywords (`app.py` line 90). -/
def minKeywords : List String := ["least", "lowest", "bottom", "minimum", "min"]

/-- Average keywords (`app.py` line 93). -/
def avgKeywords : List String := ["average", "mean"]

/-- Sum keywords (`app.py` line 96). -/
def sumKeywords : List String := ["sum", "total"]

/-- Count keywords (`app.py` line 99). -/
def countKeywords : List String := ["count", "how many"]

/-- Statistics keywords (`app.py` line 103). -/
def statKeywords : List String := ["statistic", "summary", "describe", "overview"]

/-- Data-information keywords (`app.py` line 107). -/
def infoKeywords : List String := ["info", "information", "columns", "shape"]

/-- Missing-value keywords (`app.py` line 111). -/
def missingKeywords : List String := ["missing", "null", "na", "empty"]

/-- Correlation keywords (`app.py` line 115). -/
def corrKeywords : List String := ["correlation", "relationship", "correlate"]

/-- Column-analysis keywords (`app.py` line 119). -/
def columnKeywords : List String := ["column", "feature", "variable"]

/-- Distribution keywords (`app.py` line 123). -/
def distKeywords : List String := ["distribution", "histogram", "frequency"]

/-- The analysis intents, one per branch of `analyze_question`. -/
inductive Intent where
  | extremesMax | extremesMin | average | sumTotal | rowCount | statistics
  | dataInfo | missingValues | correlation | columnLookup | distribution | general
deriving DecidableEq

/-- The keyword tests of `analyze_question` (`app.py` lines 87-128),
factored as an intent classifier: the if/elif chain tests the
lowercased question against each keyword list in source order, first
match winning, with a default branch. -/
def classify (q : String) : Intent :=
  let ql := lowerStr q
  if kwAny maxKeywords ql then .extremesMax
  else if kwAny minKeywords ql then .extremesMin
  else if kwAny avgKeywords ql then .average
  else if kwAny sumKeywords ql then .sumTotal
  else if kwAny countKeywords ql then .rowCount
  else if kwAny statKeywords ql then .statistics
  else if kwAny infoKeywords ql then .dataInfo
  else if kwAny missingKeywords ql then .missingValues
  else if kwAny corrKeywords ql then .correlation
  else if kwAny columnKeywords ql then .columnLookup
  else if kwAny distKeywords ql then .distribution
  else .general

/-- An ordered rule list together with its first-match-wins semantics,
used to state that `classify` is a fixed-priority keyword matcher. -/
def firstMatch : List (List String × Intent) → String → Intent
  | [], _ => .general
  | r :: rest, ql => if kwAny r.1 ql then r.2 else firstMatch rest ql

/-- The dispatch priority order of `analyze_question`. -/
def dispatchRules : List (List String × Intent) :=
  [(maxKeywords, .extremesMax), (minKeywords, .extremesMin),
   (avgKeywords, .average), (sumKeywords, .sumTotal),
   (countKeywords, .rowCount), (statKeywords, .statistics),
   (infoKeywords, .dataInfo), (missingKeywords, .missingValues),
   (corrKeywords, .correlation), (columnKeywords, .columnLookup),
   (distKeywords, .distribution)]

/-- Models the repeated pattern `[col for col in self.df.columns if
col.lower() in question.lower()]`. -/
def mentionedColumns (df : Dataset) (q : String) : List String :=
  df.cols.filterMap (fun c =>
    if substrB (lowerStr c.1) (lowerStr q) then some c.1 else none)

/-- Models `find_user_column` (`app.py` lines 274-280): the first
column whose lowercased name contains one of the user-like words. -/
def find_user_column (df : Dataset) : Option String :=
  (df.cols.find? (fun c =>
    kwAny ["user", "name", "username", "student", "customer", "person"]
      (lowerStr c.1))).map (fun c => c.1)

/-- The local state of the column loop of `analyze_max_min_questions`:
the accumulated result texts, the accumulated figures, and the Python
local `user_col` (`none` while the local is still unbound — reading it
then raises `UnboundLocalError`). -/
structure MMAcc where
  results : List String
  vizs : List Chart
  userCol : Option (Option String)
deriving DecidableEq

/-- One iteration of the column loop of `analyze_max_min_questions`
(`app.py` lines 147-185). The `user_col` local is modelled faithfully:
it is assigned only inside the unique-extremum branch, yet the Top-10
chart block of the `max` analysis reads it whenever the frame has more
than one row — if no iteration has assigned it, that read raises
`UnboundLocalError`. -/
def maxMinStep (df : Dataset) (analysisType : String) (acc : MMAcc) (col : String) :
    Except PyErr MMAcc :=
  match lookupCol df col with
  | some (ColData.num isInt vals) =>
    if analysisType = "max" then
      let maxValue := colMax vals
      let nRows := countEqRows vals maxValue
      let acc1 :=
        if nRows = 1 then
          let u := find_user_column df
          let base := "**Maximum value in \x27" ++ col ++ "\x27:** " ++ strOptNum isInt maxValue
          let text :=
            match u with
            | some ucol =>
                base ++ "\n**User with maximum " ++ col ++ ":** "
                  ++ cellStr (lookupCol df ucol) (firstEqIdx vals maxValue)
            | none => base
          { acc with results := acc.results ++ [text], userCol := some u }
        else
          { acc with results := acc.results ++
              ["**Maximum value in \x27" ++ col ++ "\x27:** " ++ strOptNum isInt maxValue
                ++ " (found in " ++ toString nRows ++ " records)"] }
      if 1 < df.nrows then
        match acc1.userCol with
        | none => .error (.unboundLocal "user_col")
        | some u =>
          let xcol := match u with | some s => s | none => col
          .ok { acc1 with
                  vizs := acc1.vizs ++ [Chart.bar xcol col ("Top 10 Values in " ++ col)] }
      else .ok acc1
    else
      let minValue := colMin vals
      let nRows := countEqRows vals minValue
      let acc1 :=
        if nRows = 1 then
          let u := find_user_column df
          let base := "**Minimum value in \x27" ++ col ++ "\x27:** " ++ strOptNum isInt minValue
          let text :=
            match u with
            | some ucol =>
                base ++ "\n**User with minimum " ++ col ++ ":** "
                  ++ cellStr (lookupCol df ucol) (firstEqIdx vals minValue)
            | none => base
          { acc with results := acc.results ++ [text], userCol := some u }
        else
          { acc with results := acc.results ++
              ["**Minimum value in \x27" ++ col ++ "\x27:** " ++ strOptNum isInt minValue
                ++ " (found in " ++ toString nRows ++ " records)"] }
      .ok acc1
  | _ => .ok acc

/-- Models `analyze_max_min_questions` (`app.py` lines 130-191):
columns mentioned in the question (all numeric columns when none is
mentioned), the per-column max/min analysis, and the explicit fallback
message when no numeric column was analysed. -/
def analyze_max_min_questions (df : Dataset) (question : String) (analysisType : String) :
    Except PyErr AnalysisResult := do
  let mentioned := mentionedColumns df question
  let cols := if mentioned.isEmpty then (numericCols df).map (fun c => c.1) else mentioned
  let acc ← cols.foldlM (maxMinStep df analysisType) ⟨[], [], none⟩
  if acc.results.isEmpty then
    return ("No numeric columns found for " ++ analysisType ++ " analysis.", none)
  return (String.intercalate "\n\n" acc.results, some acc.vizs)

/-- Models `analyze_average_questions` (`app.py` lines 193-215). -/
def analyze_average_questions (df : Dataset) (question : String) : AnalysisResult :=
  let mentioned := mentionedColumns df question
  let cols := if mentioned.isEmpty then (numericCols df).map (fun c => c.1) else mentioned
  let results := cols.filterMap (fun col =>
    match lookupCol df col with
    | some (ColData.num _ vals) =>
        some ("**Average of \x27" ++ col ++ "\x27:** " ++ fmt2Opt (meanQ vals))
    | _ => none)
  if results.isEmpty then ("No numeric columns found for average calculation.", none)
  else (String.intercalate "\n\n" results, none)

/-- Models `analyze_sum_questions` (`app.py` lines 217-239). -/
def analyze_sum_questions (df : Dataset) (question : String) : AnalysisResult :=
  let mentioned := mentionedColumns df question
  let cols := if mentioned.isEmpty then (numericCols df).map (fun c => c.1) else mentioned
  let results := cols.filterMap (fun col =>
    match lookupCol df col with
    | some (ColData.num _ vals) =>
        some ("**Total sum of \x27" ++ col ++ "\x27:** " ++ fmtComma2 (sumQ vals))
    | _ => none)
  if results.isEmpty then ("No numeric columns found for sum calculation.", none)
  else (String.intercalate "\n\n" results, none)

/-- Distinct non-null values in order of first appearance (helper for
`value_counts`). -/
def distinctFirst (vals : List (Option String)) : List String :=
  vals.foldl (fun acc v =>
    match v with
    | none => acc
    | some s => if acc.contains s then acc else acc ++ [s]) []

/-- Stable insertion by descending count (helper for `value_counts`). -/
def insertDesc (a : String × Nat) : List (String × Nat) → List (String × Nat)
  | [] => [a]
  | b :: l => if b.2 < a.2 then a :: b :: l else b :: insertDesc a l

/-- Models `series.value_counts().head(10)`: distinct non-null values
with their frequencies, descending by frequency, ties in order of
first appearance, first ten. -/
def valueCountsTop (vals : List (Option String)) : List (String × Nat) :=
  (((distinctFirst vals).map (fun v => (v, vals.countP (fun x => x == some v)))).foldl
    (fun acc a => insertDesc a acc) []).take 10

/-- Models `value_counts().head(10).to_string()` (one `value count`
line per value; the pandas column-alignment whitespace is not reproduced —
no claim depends on this rendering). -/
def valueCountsToString (vals : List (Option String)) : String :=
  String.intercalate "\n" ((valueCountsTop vals).map (fun p => p.1 ++ " " ++ toString p.2))

/-- Models `analyze_count_questions` (`app.py` lines 241-272). -/
def analyze_count_questions (df : Dataset) (question : String) : AnalysisResult :=
  let ql := lowerStr question
  let results :=
    if substrB "unique" ql then
      (objCols df).map (fun c =>
        "**Unique values in \x27" ++ c.1 ++ "\x27:** " ++ toString (nunique (ColData.obj c.2)))
    else if substrB "null" ql || substrB "missing" ql then
      df.cols.filterMap (fun c =>
        if 0 < nullCount c.2 then
          some ("**Missing values in \x27" ++ c.1 ++ "\x27:** " ++ toString (nullCount c.2))
        else none)
    else
      ["**Total number of records:** " ++ commaGroups df.nrows] ++
        df.cols.filterMap (fun c =>
          if substrB (lowerStr c.1) (lowerStr question) then
            match c.2 with
            | .obj vals =>
                some ("**Value counts for \x27" ++ c.1 ++ "\x27:**\n" ++ valueCountsToString vals)
            | _ => none
          else none)
  if results.isEmpty then
    ("Please specify what you\x27d like to count (e.g., \x27unique users\x27, \x27missing values\x27, \x27total records\x27).", none)
  else (String.intercalate "\n\n" results, none)

/-- The statistics table computed by `numeric_df.describe()` for one
column: label/value pairs in the row order of `describe`, `none` modelling a
`NaN` entry. Note the `count` row is the count of NON-null values; no
null count appears anywhere in the output of `describe`. -/
noncomputable def describeStats (vals : List (Option ℚ)) : List (String × Option ℝ) :=
  let xs := sortQ (vals.filterMap id)
  let n := xs.length
  [("count", some ((n : ℕ) : ℝ)),
   ("mean", if n = 0 then none else some ((xs.sum / (n : ℚ) : ℚ) : ℝ)),
   ("std", stdR vals),
   ("min", if n = 0 then none else some ((xs.getD 0 0 : ℚ) : ℝ)),
   ("25%", if n = 0 then none else some ((quantileLin (1/4) xs : ℚ) : ℝ)),
   ("50%", if n = 0 then none else some ((quantileLin (1/2) xs : ℚ) : ℝ)),
   ("75%", if n = 0 then none else some ((quantileLin (3/4) xs : ℚ) : ℝ)),
   ("max", if n = 0 then none else some ((xs.getD (n - 1) 0 : ℚ) : ℝ))]

/-- Renders one statistic as in `describe().to_string()` (`NaN` for an
absent value; the pandas adaptive float formatting and column alignment
are not reproduced — no claim depends on this rendering). -/
noncomputable def statToString (v : Option ℝ) : String :=
  match v with
  | none => "NaN"
  | some x => fmt2R x

/-- Models `stats.to_string()` of the `describe()` frame: one block per
numeric column with its eight statistics. -/
noncomputable def describeToString (ncols : List (String × List (Option ℚ))) : String :=
  String.intercalate "\n" (ncols.map (fun c =>
    c.1 ++ "\n" ++ String.intercalate "\n"
      ((describeStats c.2).map (fun s => s.1 ++ " " ++ statToString s.2))))

/-- Models `get_basic_statistics` (`app.py` lines 282-290). -/
noncomputable def get_basic_statistics (df : Dataset) : AnalysisResult :=
  if (numericCols df).isEmpty then
    ("No numeric columns found for statistical analysis.", none)
  else
    ("**Basic Statistics for Numeric Columns:**\n\n" ++ describeToString (numericCols df), none)

/-- Models `get_data_info` (`app.py` lines 292-303), built on the
shape/column fields of `get_dataset_info` (lines 63-77). -/
def get_data_info (df : Dataset) : AnalysisResult :=
  let numericNames := (numericCols df).map (fun c => c.1)
  let catNames := (objCols df).map (fun c => c.1)
  ("\n**Dataset Information:**\n- **Shape**: " ++ toString df.nrows ++ " rows × "
      ++ toString df.cols.length ++ " columns\n- **Columns**: "
      ++ String.intercalate ", " (df.cols.map (fun c => c.1))
      ++ "\n- **Numeric Columns**: "
      ++ (if numericNames.isEmpty then "None" else String.intercalate ", " numericNames)
      ++ "\n- **Categorical Columns**: "
      ++ (if catNames.isEmpty then "None" else String.intercalate ", " catNames)
      ++ "\n", none)

/-- Models `get_missing_values` (`app.py` lines 305-318). The
percentage `missing_data / len(df) * 100` is rendered only for columns
with a positive null count (which forces a positive row count); on a
0-row frame the pandas division yields unused `NaN`s — the rational
division-by-zero convention stands in for those unused values. -/
def get_missing_values (df : Dataset) : AnalysisResult :=
  let counts := df.cols.map (fun c => (c.1, nullCount c.2))
  let body := counts.foldl (fun acc c =>
    if 0 < c.2 then
      acc ++ "- **" ++ c.1 ++ "**: " ++ toString c.2 ++ " missing values ("
        ++ fmt2 (((c.2 : ℕ) : ℚ) / ((df.nrows : ℕ) : ℚ) * 100) ++ "%)\n"
    else acc) "**Missing Values Analysis:**\n\n"
  if (counts.map (fun c => c.2)).sum = 0 then
    (body ++ "No missing values found in the dataset!", none)
  else (body, none)

/-- Rows where both columns have a value: the pairwise-complete
observations over which `DataFrame.corr` computes each entry. -/
def pairedVals (xs ys : List (Option ℚ)) : List (ℚ × ℚ) :=
  (xs.zip ys).filterMap (fun p =>
    match p with
    | (some a, some b) => some (a, b)
    | _ => none)

/-- Centered product sum Σ (x-x̄)(y-ȳ) over the paired rows. -/
def covSum (xs ys : List (Option ℚ)) : ℚ :=
  let p := pairedVals xs ys
  let mx := (p.map (fun v => v.1)).sum / ((p.length : ℕ) : ℚ)
  let my := (p.map (fun v => v.2)).sum / ((p.length : ℕ) : ℚ)
  (p.map (fun v => (v.1 - mx) * (v.2 - my))).sum

/-- Centered square sum Σ (x-x̄)² of the first coordinates. -/
def sqSumX (xs ys : List (Option ℚ)) : ℚ :=
  let p := pairedVals xs ys
  let mx := (p.map (fun v => v.1)).sum / ((p.length : ℕ) : ℚ)
  (p.map (fun v => (v.1 - mx) ^ 2)).sum

/-- Centered square sum Σ (y-ȳ)² of the second coordinates. -/
def sqSumY (xs ys : List (Option ℚ)) : ℚ :=
  let p := pairedVals xs ys
  let my := (p.map (fun v => v.2)).sum / ((p.length : ℕ) : ℚ)
  (p.map (fun v => (v.2 - my) ^ 2)).sum

/-- The Pearson correlation `correlation_matrix.iloc[i, j]` of two
columns: Σ(x-x̄)(y-ȳ) / √(Σ(x-x̄)² · Σ(y-ȳ)²) — the `n-1`
normalisations of covariance and standard deviations cancel. A zero
denominator gives `NaN` in pandas and `0` here; both fail the `> 0.5`
filter, the only context that reads the value. -/
noncomputable def corrVal (xs ys : List (Option ℚ)) : ℝ :=
  ((covSum xs ys : ℚ) : ℝ) /
    Real.sqrt (((sqSumX xs ys : ℚ) : ℝ) * ((sqSumY xs ys : ℚ) : ℝ))

/-- The index pairs visited by the nested loops `for i in range(n): for
j in range(i+1, n)`: each unordered pair once, in lexicographic
column-index order. -/
def idxPairs (n : Nat) : List (Nat × Nat) :=
  ((List.range n).map (fun i => (List.range' (i + 1) (n - (i + 1))).map (fun j => (i, j)))).flatten

/-- The body of the `high_corr_pairs` loop (`app.py` lines 344-350):
keep the columns-and-correlation triple of the index pair `ij` when
the absolute correlation `abs(corr_val)` exceeds `0.5`. -/
noncomputable def corrPairAt (ncols : List (String × List (Option ℚ))) (ij : Nat × Nat) :
    Option (String × String × ℝ) :=
  let ci := ncols.getD ij.1 ("", [])
  let cj := ncols.getD ij.2 ("", [])
  let c := corrVal ci.2 cj.2
  if |c| > 0.5 then some (ci.1, cj.1, c) else none

/-- Models the `high_corr_pairs` loop of `get_correlation_analysis`
(`app.py` lines 341-350): the pairs of numeric columns whose absolute
correlation exceeds `0.5`, in discovery order. -/
noncomputable def highCorrPairs (df : Dataset) : List (String × String × ℝ) :=
  (idxPairs (numericCols df).length).filterMap (corrPairAt (numericCols df))

/-- Models `get_correlation_analysis` (`app.py` lines 320-362). -/
noncomputable def get_correlation_analysis (df : Dataset) : AnalysisResult :=
  let ncols := numericCols df
  if ncols.isEmpty then ("No numeric columns found for correlation analysis.", none)
  else if ncols.length < 2 then
    ("Need at least 2 numeric columns for correlation analysis.", none)
  else
    let pairs := highCorrPairs df
    let base := "**Correlation Analysis:**\n\nCorrelation matrix computed for "
      ++ toString ncols.length ++ " numeric columns.\n\n"
    let response :=
      if pairs.isEmpty then base ++ "No strong correlations found (|r| > 0.5)."
      else base ++ "**Strong Correlations (|r| > 0.5):**\n"
        ++ String.join (pairs.map (fun p =>
             "- " ++ p.1 ++ " & " ++ p.2.1 ++ ": " ++ fmt3R p.2.2 ++ "\n"))
    (response, some [Chart.heatmap "Correlation Heatmap"])

/-- Models `analyze_specific_columns` (`app.py` lines 364-400). -/
noncomputable def analyze_specific_columns (df : Dataset) (question : String) : AnalysisResult :=
  let columnsFound := mentionedColumns df question
  if columnsFound.isEmpty then
    ("Please specify which columns you\x27d like to analyze. Available columns: "
      ++ String.intercalate ", " (df.cols.map (fun c => c.1)), none)
  else
    let start := ("**Analysis for columns: " ++ String.intercalate ", " columnsFound ++ "**\n\n",
                  ([] : List Chart))
    let step := fun (acc : String × List Chart) (col : String) =>
      match lookupCol df col with
      | none => acc
      | some cd =>
        let base := acc.1 ++ "**" ++ col ++ "** (dtype: " ++ dtypeStr cd ++ "):\n"
          ++ "- Unique values: " ++ toString (nunique cd) ++ "\n"
          ++ "- Missing values: " ++ toString (nullCount cd) ++ "\n"
        match cd with
        | .num _ vals =>
            (base ++ "- Mean: " ++ fmt2Opt (meanQ vals) ++ "\n"
              ++ "- Median: " ++ fmt2Opt (medianQ vals) ++ "\n"
              ++ "- Std: " ++ fmt2ROpt (stdR vals) ++ "\n"
              ++ "- Min: " ++ fmt2Opt (colMin vals) ++ "\n"
              ++ "- Max: " ++ fmt2Opt (colMax vals) ++ "\n\n",
             acc.2 ++ [Chart.histogram col ("Distribution of " ++ col)])
        | .obj _ => (base ++ "\n", acc.2)
    let r := columnsFound.foldl step start
    (r.1, some r.2)

/-- Models `analyze_distribution` (`app.py` lines 402-420): one
histogram-with-box-marginal per numeric column, limited to the first
three. -/
def analyze_distribution (df : Dataset) (question : String) : AnalysisResult :=
  let ncols := (numericCols df).map (fun c => c.1)
  if ncols.isEmpty then ("No numeric columns found for distribution analysis.", none)
  else
    (("Displayed distribution plots for numeric columns. Analyzed distributions for: "
       ++ String.intercalate ", " (ncols.take 3)),
     some ((ncols.take 3).map (fun col => Chart.histogramBox col ("Distribution of " ++ col))))

/-- Models `general_analysis` (`app.py` lines 422-442): the default
branch for unrecognized questions. -/
def general_analysis (df : Dataset) (question : String) : AnalysisResult :=
  ("I\x27ve analyzed your question: \x27" ++ question ++ "\x27\n\n"
    ++ "**Dataset Overview:**\n"
    ++ "- The dataset has " ++ toString df.nrows ++ " rows and "
      ++ toString df.cols.length ++ " columns\n"
    ++ "- Numeric columns: " ++ toString (numericCols df).length ++ "\n"
    ++ "- Categorical columns: " ++ toString (objCols df).length ++ "\n\n"
    ++ "**You can ask me about:**\n"
    ++ "- \x27Which user has the most total_lessons?\x27\n"
    ++ "- \x27Show me the highest values in each column\x27\n"
    ++ "- \x27What is the average age?\x27\n"
    ++ "- \x27Total sum of sales\x27\n"
    ++ "- \x27How many unique users?\x27\n"
    ++ "- Basic statistics and correlations\n"
    ++ "- Data distributions and missing values\n", none)

/-- Models `analyze_question` (`app.py` lines 79-128) on a loaded
dataset: dispatch on the keyword classification to the branch
analyses. Of the branch analyses, only the max/min one can raise (see
`maxMinStep`); with no loaded frame the method returns early, a case
outside the claims. -/
noncomputable def analyze_question (df : Dataset) (question : String) :
    Except PyErr AnalysisResult :=
  match classify question with
  | .extremesMax => analyze_max_min_questions df question "max"
  | .extremesMin => analyze_max_min_questions df question "min"
  | .average => .ok (analyze_average_questions df question)
  | .sumTotal => .ok (analyze_sum_questions df question)
  | .rowCount => .ok (analyze_count_questions df question)
  | .statistics => .ok (get_basic_statistics df)
  | .dataInfo => .ok (get_data_info df)
  | .missingValues => .ok (get_missing_values df)
  | .correlation => .ok (get_correlation_analysis df)
  | .columnLookup => .ok (analyze_specific_columns df question)
  | .distribution => .ok (analyze_distribution df question)
  | .general => .ok (general_analysis df question)

/-! Concrete datasets used to evaluate the dispatcher. -/

/-- A one-column dataset whose maximum is attained twice. -/
def dfScoreTie : Dataset := ⟨[("score", ColData.num true [some 4, some 9, some 9])]⟩

/-- The dataset of the specification Extremes example: the maximum 9 is
attained by two of the three rows. -/
def dfUserScoreTie : Dataset :=
  ⟨[("user", ColData.obj [some "A", some "B", some "C"]),
    ("score", ColData.num true [some 5, some 9, some 9])]⟩

/-- A variant with a unique maximum (row A) and a tied minimum. -/
def dfUserScoreRev : Dataset :=
  ⟨[("user", ColData.obj [some "A", some "B", some "C"]),
    ("score", ColData.num true [some 9, some 5, some 5])]⟩

/-- Ten rows whose `date` column holds three April-2023 dates. -/
def dfDates : Dataset :=
  ⟨[("date", ColData.obj [some "2023-04-01", some "2023-04-15", some "2023-04-20",
      some "2023-01-05", some "2023-02-10", some "2023-03-11", some "2023-05-12",
      some "2023-06-13", some "2023-07-14", some "2023-08-15"])]⟩

/-- The numeric column 10, 20, 30 of the statistics example. -/
def exVals : List (Option ℚ) := [some 10, some 20, some 30]

/-- A user/score dataset whose `score` column is `exVals`. -/
def dfUserScore : Dataset :=
  ⟨[("user", ColData.obj [some "A", some "B", some "C"]),
    ("score", ColData.num true exVals)]⟩

/-- Two perfectly anti-correlated numeric columns. -/
def dfAnti : Dataset :=
  ⟨[("a", ColData.num true [some 1, some 2, some 3]),
    ("b", ColData.num true [some 3, some 2, some 1])]⟩

/-- A zero-row dataset with one numeric column named `zzz`. -/
def dfZeroRows : Dataset := ⟨[("zzz", ColData.num true [])]⟩

/-- A zero-row dataset with one object column. -/
def dfZeroRowsObj : Dataset := ⟨[("a", ColData.obj [])]⟩

/-- A dataset with no numeric column. -/
def dfNoNumeric : Dataset := ⟨[("tag", ColData.obj [some "x", some "y"])]⟩

/-- A dataset with a single numeric column. -/
def dfOneNumeric : Dataset := ⟨[("score", ColData.num true [some 1, some 2])]⟩

/-! Helper lemmas. -/

/-- A keyword matches a concatenation of lists iff it matches one part. -/
theorem kwAny_append (l1 l2 : List String) (s : String) :
    kwAny (l1 ++ l2) s = (kwAny l1 s || kwAny l2 s) := by
  simp [kwAny]

/-- The double loop of `get_correlation_analysis` enumerates the index
pairs in strictly increasing lexicographic order. -/
theorem idxPairs_pairwise (n : Nat) :
    (idxPairs n).Pairwise (fun p q => p.1 < q.1 ∨ (p.1 = q.1 ∧ p.2 < q.2)) := by
  unfold idxPairs
  rw [List.pairwise_flatten]
  constructor
  · intro l hl
    rcases List.mem_map.mp hl with ⟨i, _, rfl⟩
    rw [List.pairwise_map]
    exact (List.pairwise_lt_range' ..).imp (fun h => Or.inr ⟨rfl, h⟩)
  · rw [List.pairwise_map]
    refine (List.pairwise_lt_range ..).imp ?_
    intro i j hij x hx y hy
    rcases List.mem_map.mp hx with ⟨a, _, rfl⟩
    rcases List.mem_map.mp hy with ⟨b, _, rfl⟩
    exact Or.inl hij

/-- Every enumerated index pair has its first index below its second. -/
theorem idxPairs_mem_lt (n : Nat) : ∀ p ∈ idxPairs n, p.1 < p.2 := by
  intro p hp
  unfold idxPairs at hp
  rcases List.mem_flatten.mp hp with ⟨l, hl, hpl⟩
  rcases List.mem_map.mp hl with ⟨i, _, rfl⟩
  rcases List.mem_map.mp hpl with ⟨j, hj, rfl⟩
  have := (List.mem_range'_1.mp hj).1
  omega

/-- A guarded fold whose guard never fires keeps its seed. -/
theorem foldl_guard_skip (g : String → String × Nat → String) :
    ∀ (l : List (String × Nat)) (s : String), (∀ c ∈ l, c.2 = 0) →
      l.foldl (fun acc c => if 0 < c.2 then g acc c else acc) s = s := by
  intro l
  induction l with
  | nil => intro s _; rfl
  | cons c t ih =>
      intro s h
      have hc : c.2 = 0 := h c (by simp)
      simp only [List.foldl_cons, hc]
      rw [if_neg (by simp)]
      exact ih s (fun x hx => h x (by simp [hx]))

/-- The non-null values of the example column. -/
theorem exVals_filterMap : exVals.filterMap id = [(10:ℚ), 20, 30] := by decide

/-- The example column is already sorted. -/
theorem exVals_sorted : sortQ [(10:ℚ), 20, 30] = [(10:ℚ), 20, 30] := by decide

/-- First quartile of the example column under linear interpolation. -/
theorem quantileLin_ex25 : quantileLin (1/4) [(10:ℚ), 20, 30] = 15 := by
  norm_num [quantileLin]

/-- Median of the example column. -/
theorem quantileLin_ex50 : quantileLin (1/2) [(10:ℚ), 20, 30] = 20 := by
  norm_num [quantileLin]

/-- Third quartile of the example column. -/
theorem quantileLin_ex75 : quantileLin (3/4) [(10:ℚ), 20, 30] = 25 := by
  norm_num [quantileLin]

/-- Mean of the example column. -/
theorem exVals_mean : meanQ exVals = some 20 := by
  simp only [meanQ, exVals_filterMap]
  norm_num

/-- Median of the example column. -/
theorem exVals_median : medianQ exVals = some 20 := by
  simp only [medianQ, exVals_filterMap, exVals_sorted]
  norm_num [quantileLin_ex50]

/-- Sample variance (divisor 2) of the example column. -/
theorem exVals_sampleVar : sampleVarQ exVals = 100 := by
  simp only [sampleVarQ, exVals_filterMap]
  norm_num

/-- Sample standard deviation of the example column. -/
theorem exVals_stdR : stdR exVals = some 10 := by
  simp only [stdR, exVals_filterMap]
  rw [if_neg (by decide), exVals_sampleVar, show ((100:ℚ):ℝ) = 10^2 by norm_num,
    Real.sqrt_sq (by norm_num : (0:ℝ) ≤ 10)]

/-- Rendering of 10 in the two-decimal format. -/
theorem fmt2_ten : fmt2 10 = "10.00" := by
  show fmtCentiInt (round ((10:ℚ) * 100)) = "10.00"
  rw [show round ((10:ℚ) * 100) = 1000 by rw [round_eq]; norm_num]
  decide

/-- Rendering of 20 in the two-decimal format. -/
theorem fmt2_twenty : fmt2 20 = "20.00" := by
  show fmtCentiInt (round ((20:ℚ) * 100)) = "20.00"
  rw [show round ((20:ℚ) * 100) = 2000 by rw [round_eq]; norm_num]
  decide

/-- Rendering of 30 in the two-decimal format. -/
theorem fmt2_thirty : fmt2 30 = "30.00" := by
  show fmtCentiInt (round ((30:ℚ) * 100)) = "30.00"
  rw [show round ((30:ℚ) * 100) = 3000 by rw [round_eq]; norm_num]
  decide

/-- Rendering of the real 10 in the two-decimal format. -/
theorem fmt2R_ten : fmt2R (10:ℝ) = "10.00" := by
  show fmtCentiInt (round ((10:ℝ) * 100)) = "10.00"
  rw [show ((10:ℝ) * 100) = ((1000:ℤ):ℝ) by norm_num, round_intCast]
  decide

/-- Rendering of the real -1 in the three-decimal format. -/
theorem fmt3R_negOne : fmt3R (-1:ℝ) = "-1.000" := by
  show fmtMilliInt (round ((-1:ℝ) * 1000)) = "-1.000"
  rw [show ((-1:ℝ) * 1000) = ((-1000:ℤ):ℝ) by norm_num, round_intCast]
  decide

/-- Rendered mean of the example column. -/
theorem exVals_fmt_mean : fmt2Opt (meanQ exVals) = "20.00" := by
  rw [exVals_mean]; exact fmt2_twenty

/-- Rendered median of the example column. -/
theorem exVals_fmt_median : fmt2Opt (medianQ exVals) = "20.00" := by
  rw [exVals_median]; exact fmt2_twenty

/-- Rendered standard deviation of the example column. -/
theorem exVals_fmt_std : fmt2ROpt (stdR exVals) = "10.00" := by
  rw [exVals_stdR]; exact fmt2R_ten

/-- Rendered minimum of the example column. -/
theorem exVals_fmt_min : fmt2Opt (colMin exVals) = "10.00" := by
  rw [show colMin exVals = some 10 by decide]; exact fmt2_ten

/-- Rendered maximum of the example column. -/
theorem exVals_fmt_max : fmt2Opt (colMax exVals) = "30.00" := by
  rw [show colMax exVals = some 30 by decide]; exact fmt2_thirty

/-- Paired rows of the two anti-correlated columns. -/
theorem anti_paired : pairedVals [some (1:ℚ), some 2, some 3] [some (3:ℚ), some 2, some 1]
    = [(1, 3), (2, 2), (3, 1)] := by decide

/-- Centered product sum of the anti-correlated columns. -/
theorem anti_covSum : covSum [some (1:ℚ), some 2, some 3] [some (3:ℚ), some 2, some 1] = -2 := by
  simp only [covSum, anti_paired]
  norm_num

/-- Centered square sum of the first anti-correlated column. -/
theorem anti_sqSumX : sqSumX [some (1:ℚ), some 2, some 3] [some (3:ℚ), some 2, some 1] = 2 := by
  simp only [sqSumX, anti_paired]
  norm_num

/-- Centered square sum of the second anti-correlated column. -/
theorem anti_sqSumY : sqSumY [some (1:ℚ), some 2, some 3] [some (3:ℚ), some 2, some 1] = 2 := by
  simp only [sqSumY, anti_paired]
  norm_num

/-- The Pearson correlation of `[1,2,3]` and `[3,2,1]` is exactly -1. -/
theorem anti_corrVal : corrVal [some (1:ℚ), some 2, some 3] [some (3:ℚ), some 2, some 1] = -1 := by
  simp only [corrVal, anti_covSum, anti_sqSumX, anti_sqSumY]
  push_cast
  rw [show ((2:ℝ) * 2) = 2^2 by norm_num, Real.sqrt_sq (by norm_num : (0:ℝ) ≤ 2)]
  norm_num

/-! Claim theorems. -/

/-- C1: the claim states that `analyze_question` never raises and every
branch produces an explicit textual result. The code violates this: on
a loaded dataset whose `score` column attains its maximum in two rows,
the question "what is the top score" reaches the Top-10 chart block of
the max branch with the local `user_col` never assigned (it is only
assigned in the unique-maximum branch), so the dispatcher raises
`UnboundLocalError` instead of returning a result. -/
theorem C1_dispatcher_raises_on_tied_max :
    analyze_question dfScoreTie "what is the top score"
      = .error (.unboundLocal "user_col") := by decide

/-- C2: classification is a case-insensitive substring match against
fixed keyword sets in a fixed priority order with first match winning
(`classify` equals the first-match semantics of the ordered rule
list), Extremes (max/min keywords) outranks Average: any question
containing both an Extremes keyword and an Average keyword is
classified as a max- or min-extremes question and never as Average;
in particular "what is the average of the maximum score" is classified
Extremes (max). -/
theorem C2_classification_priority :
    (∀ q : String, classify q = firstMatch dispatchRules (lowerStr q))
    ∧ (∀ q : String,
        kwAny (maxKeywords ++ minKeywords) (lowerStr q) = true →
        kwAny avgKeywords (lowerStr q) = true →
        (classify q = .extremesMax ∨ classify q = .extremesMin) ∧ classify q ≠ .average)
    ∧ classify "what is the average of the maximum score" = .extremesMax := by
  refine ⟨fun q => rfl, fun q h1 _h2 => ?_, by decide⟩
  rw [kwAny_append] at h1
  by_cases hm : kwAny maxKeywords (lowerStr q) = true
  · exact ⟨Or.inl (by simp [classify, hm]), by simp [classify, hm]⟩
  · have hm' : kwAny maxKeywords (lowerStr q) = false := by
      revert hm; cases kwAny maxKeywords (lowerStr q) <;> simp
    rw [hm'] at h1
    simp only [Bool.false_or] at h1
    exact ⟨Or.inr (by simp [classify, hm', h1]), by simp [classify, hm', h1]⟩

/-- Witness for C2: "highest mean value" contains the Extremes keyword
"highest" and the Average keyword "mean" and is classified Extremes,
not Average. -/
theorem C2_classification_priority_witness :
    kwAny (maxKeywords ++ minKeywords) (lowerStr "highest mean value") = true
    ∧ kwAny avgKeywords (lowerStr "highest mean value") = true
    ∧ ((classify "highest mean value" = .extremesMax
          ∨ classify "highest mean value" = .extremesMin)
        ∧ classify "highest mean value" ≠ .average) :=
  ⟨by decide, by decide,
    C2_classification_priority.2.1 "highest mean value" (by decide) (by decide)⟩

/-- C3: the claim states that month-naming questions reach a DateFilter
intent and "how many records in April" yields the April count 3. The
dispatcher of the code has no date branch at all: on the ten-row
dataset with a `date` column holding three April-2023 dates, the
question is dispatched to the count branch by its "how many" keyword
and reports the total row count 10 — its text never mentions 3. -/
theorem C3_no_datefilter_counterexample :
    analyze_question dfDates "How many records in April"
        = .ok ("**Total number of records:** 10", none)
    ∧ substrB "3" "**Total number of records:** 10" = false
    ∧ dfDates.nrows = 10 :=
  ⟨by decide, by decide, by decide⟩

/-- C3 (amended): no DateFilter intent exists in the code; a question
naming a month is dispatched like any other — "how many records in
April" hits the Count branch via its "how many" keyword and reports
the total number of records (10 for the example dataset), not the
April-filtered count. -/
theorem C3_count_branch_amended :
    classify "How many records in April" = .rowCount
    ∧ analyze_question dfDates "How many records in April"
        = .ok ("**Total number of records:** " ++ commaGroups dfDates.nrows, none) :=
  ⟨by decide, by decide⟩

/-- C5: the claim states that a tied maximum reports the tie count
instead of a single entity. The code builds exactly that text but then
raises `UnboundLocalError` on `user_col` in the Top-10 chart block
before returning, so the specification example (users A, B, C with
scores 5, 9, 9 and question "who has the maximum score") produces an
exception, not the tie-count result. The minimum branch, which has no
chart block, does return the intended tie-count text, and the
unique-maximum case does report the entity of the extremal row. -/
theorem C5_tied_max_raises :
    analyze_question dfUserScoreTie "who has the maximum score"
        = .error (.unboundLocal "user_col")
    ∧ analyze_question dfUserScoreRev "who has the minimum score"
        = .ok ("**Minimum value in \x27score\x27:** 5 (found in 2 records)", some [])
    ∧ analyze_question dfUserScoreRev "who has the maximum score"
        = .ok ("**Maximum value in \x27score\x27:** 9\n**User with maximum score:** A",
               some [Chart.bar "user" "score" "Top 10 Values in score"]) :=
  ⟨by decide, by decide, by decide⟩

/-- C9: dispatch is deterministic — `analyze_question` is a pure
function of the dataset and the question alone (its two arguments), so
two invocations on an identical pair give the identical outcome
(including the identical exception on the inputs of C1/C5). -/
theorem C9_dispatch_deterministic :
    ∀ (df1 df2 : Dataset) (q1 q2 : String), df1 = df2 → q1 = q2 →
      analyze_question df1 q1 = analyze_question df2 q2 := by
  intro df1 df2 q1 q2 h1 h2
  rw [h1, h2]

/-- Witness for C9: two invocations on the same concrete pair agree. -/
theorem C9_dispatch_deterministic_witness :
    analyze_question dfUserScore "hello" = analyze_question dfUserScore "hello" :=
  C9_dispatch_deterministic dfUserScore dfUserScore "hello" "hello" rfl rfl

/-- C10: the dispatcher has a data-information branch outside the
intent list of the specification: after the Extremes (max and min), Average,
Sum, Count and Statistics keyword checks all fail, any question
containing `info`, `information`, `columns` or `shape` is classified
`dataInfo` and answered with the shape/columns overview of
`get_data_info`; the branch precedes the MissingValues, Correlation and
ColumnLookup checks, so a question containing "columns" can never be
classified ColumnLookup. -/
theorem C10_data_info_branch :
    (∀ q : String, kwAny maxKeywords (lowerStr q) = false →
        kwAny minKeywords (lowerStr q) = false →
        kwAny avgKeywords (lowerStr q) = false →
        kwAny sumKeywords (lowerStr q) = false →
        kwAny countKeywords (lowerStr q) = false →
        kwAny statKeywords (lowerStr q) = false →
        kwAny infoKeywords (lowerStr q) = true →
        classify q = .dataInfo)
    ∧ (∀ q : String, substrB "columns" (lowerStr q) = true → classify q ≠ .columnLookup)
    ∧ (∀ (df : Dataset) (q : String), classify q = .dataInfo →
        analyze_question df q = .ok (get_data_info df))
    ∧ analyze_question dfUserScore "what columns does the data have"
        = .ok ("\n**Dataset Information:**\n- **Shape**: 3 rows × 2 columns\n- **Columns**: user, score\n- **Numeric Columns**: score\n- **Categorical Columns**: user\n",
               none) := by
  refine ⟨?_, ?_, ?_, by decide⟩
  · intro q h1 h2 h3 h4 h5 h6 h7
    simp [classify, h1, h2, h3, h4, h5, h6, h7]
  · intro q h hcl
    have hinfo : kwAny infoKeywords (lowerStr q) = true := by
      simp [kwAny, infoKeywords, h]
    simp only [classify] at hcl
    split_ifs at hcl <;> simp_all
  · intro df q h
    simp [analyze_question, h]

/-- Witness for C10: "data shape" fails the first six keyword checks,
matches `shape`, and is answered with the data-information overview. -/
theorem C10_data_info_branch_witness :
    classify "data shape" = .dataInfo
    ∧ analyze_question dfNoNumeric "data shape" = .ok (get_data_info dfNoNumeric) :=
  ⟨by decide, C10_data_info_branch.2.2.1 dfNoNumeric "data shape" (by decide)⟩

set_option maxRecDepth 200000
set_option maxHeartbeats 2000000

/-- C7: counterexample — the claim says the missing-values analysis of
a 0-row dataset "reports 0% missing for every column". On the 0-row
dataset with column `zzz`, every column has zero nulls, so the itemized
loop emits nothing: the output never mentions the column nor any
percentage; only the dataset-wide "no missing values" statement
appears. -/
theorem C7_zero_rows_counterexample :
    get_missing_values dfZeroRows
        = ("**Missing Values Analysis:**\n\nNo missing values found in the dataset!", none)
    ∧ substrB "zzz" (get_missing_values dfZeroRows).1 = false
    ∧ substrB "%" (get_missing_values dfZeroRows).1 = false :=
  ⟨by decide, by decide, by decide⟩

/-- C7 (amended): on a well-formed dataset with 0 rows the
missing-values analysis raises no division error and reports no
per-column percentages: every column has zero nulls, hence all columns
are omitted from the itemized list (the computed percentage is never
rendered), and the single "no missing values" statement is emitted. -/
theorem C7_zero_rows_amended :
    ∀ df : Dataset, df.wfb = true → df.nrows = 0 →
      (∀ c ∈ df.cols, nullCount c.2 = 0)
      ∧ get_missing_values df
          = ("**Missing Values Analysis:**\n\nNo missing values found in the dataset!",
             none) := by
  intro df hwf h0
  have hz : ∀ c ∈ df.cols, nullCount c.2 = 0 := by
    intro c hc
    have h1 := List.all_eq_true.mp hwf c hc
    rw [h0] at h1
    have hlen : colLen c.2 = 0 := by simpa using h1
    have hle : nullCount c.2 ≤ colLen c.2 := by
      rcases c with ⟨name, cd⟩
      cases cd <;> simp [nullCount, colLen] <;> exact List.countP_le_length _
    omega
  refine ⟨hz, ?_⟩
  have hcz : ∀ p ∈ df.cols.map (fun c => (c.1, nullCount c.2)), p.2 = 0 := by
    intro p hp
    rcases List.mem_map.mp hp with ⟨c, hc, rfl⟩
    exact hz c hc
  simp only [get_missing_values]
  rw [foldl_guard_skip
        (fun acc c => acc ++ "- **" ++ c.1 ++ "**: " ++ toString c.2 ++ " missing values ("
          ++ fmt2 (((c.2 : ℕ) : ℚ) / ((df.nrows : ℕ) : ℚ) * 100) ++ "%)\n")
        _ _ hcz]
  rw [if_pos (List.sum_eq_zero (fun x hx => by
    rcases List.mem_map.mp hx with ⟨p, hp, rfl⟩
    exact hcz p hp))]
  rfl

/-- Witness for C7 (amended) at the 0-row one-column dataset. -/
theorem C7_zero_rows_amended_witness :
    Dataset.wfb dfZeroRowsObj = true ∧ dfZeroRowsObj.nrows = 0
    ∧ ((∀ c ∈ dfZeroRowsObj.cols, nullCount c.2 = 0)
        ∧ get_missing_values dfZeroRowsObj
            = ("**Missing Values Analysis:**\n\nNo missing values found in the dataset!",
               none)) :=
  ⟨by decide, by decide, C7_zero_rows_amended dfZeroRowsObj (by decide) (by decide)⟩

/-- C8: counterexample — the claim says the statistics analysis
reports, per numeric column, a null count ("nulls 0" for the example).
The code renders `describe()`, whose table has exactly the eight rows
`count, mean, std, min, 25%, 50%, 75%, max`; no label mentions nulls,
and the `count` row is the NON-null count 3 (not the null count 0). -/
theorem C8_no_null_count_counterexample :
    ((describeStats exVals).map Prod.fst)
        = ["count", "mean", "std", "min", "25%", "50%", "75%", "max"]
    ∧ ((describeStats exVals).map Prod.fst).all
        (fun l => !(substrB "null" (lowerStr l))) = true
    ∧ (describeStats exVals).head? = some ("count", some (3:ℝ)) := by
  refine ⟨by decide, by decide, ?_⟩
  simp only [describeStats, exVals_filterMap, exVals_sorted]
  norm_num

/-- C8 (amended): the statistics analysis reports the eight `describe()`
statistics per numeric column — non-null count, mean, sample standard
deviation (divisor n-1), min, the 25%/50%/75% quantiles (50% being the
median) and max — not a null count; a dataset without numeric columns
yields the explicit "no numeric columns" message; on the column
`[10, 20, 30]` the table is count 3, mean 20, std 10, min 10, 25% 15,
median 20, 75% 25, max 30. -/
theorem C8_describe_amended :
    (∀ df : Dataset, (numericCols df).isEmpty = true →
        get_basic_statistics df = ("No numeric columns found for statistical analysis.", none))
    ∧ describeStats exVals
        = [("count", some 3), ("mean", some 20), ("std", some 10), ("min", some 10),
           ("25%", some 15), ("50%", some 20), ("75%", some 25), ("max", some 30)]
    ∧ get_basic_statistics dfUserScore
        = ("**Basic Statistics for Numeric Columns:**\n\n"
            ++ describeToString [("score", exVals)], none) := by
  refine ⟨?_, ?_, ?_⟩
  · intro df h
    simp only [get_basic_statistics]
    rw [if_pos h]
  · simp only [describeStats, exVals_filterMap, exVals_sorted, exVals_stdR]
    norm_num [quantileLin_ex25, quantileLin_ex50, quantileLin_ex75]
  · rfl

/-- Witness for C8 (amended): the no-numeric-columns case at a
concrete dataset. -/
theorem C8_describe_amended_witness :
    (numericCols dfNoNumeric).isEmpty = true
    ∧ get_basic_statistics dfNoNumeric
        = ("No numeric columns found for statistical analysis.", none) :=
  ⟨by decide, C8_describe_amended.1 dfNoNumeric (by decide)⟩

/-- C6: correlation analysis returns an explicit error message when
fewer than two numeric columns exist; otherwise it attaches the
correlation heatmap, enumerates the index pairs exactly once in
strictly increasing lexicographic (column-index) order with i < j —
discovery order, not correlation strength — reporting those whose
absolute Pearson correlation exceeds 0.5, and states explicitly when
no pair exceeds the threshold; the two perfectly anti-correlated
columns `[1,2,3]` and `[3,2,1]` have correlation exactly -1 and are
reported as "- a & b: -1.000". -/
theorem C6_correlation_analysis :
    (∀ df : Dataset, (numericCols df).length < 2 →
        (get_correlation_analysis df).2 = none
        ∧ ((get_correlation_analysis df).1
              = "No numeric columns found for correlation analysis."
            ∨ (get_correlation_analysis df).1
              = "Need at least 2 numeric columns for correlation analysis."))
    ∧ (∀ df : Dataset, 2 ≤ (numericCols df).length →
        (get_correlation_analysis df).2 = some [Chart.heatmap "Correlation Heatmap"])
    ∧ (∀ n : Nat, (idxPairs n).Pairwise (fun p q => p.1 < q.1 ∨ (p.1 = q.1 ∧ p.2 < q.2))
        ∧ ∀ p ∈ idxPairs n, p.1 < p.2)
    ∧ (∀ df : Dataset, 2 ≤ (numericCols df).length → highCorrPairs df = [] →
        (get_correlation_analysis df).1
          = "**Correlation Analysis:**\n\nCorrelation matrix computed for "
              ++ toString (numericCols df).length
              ++ " numeric columns.\n\nNo strong correlations found (|r| > 0.5).")
    ∧ corrVal [some (1:ℚ), some 2, some 3] [some (3:ℚ), some 2, some 1] = -1
    ∧ get_correlation_analysis dfAnti
        = ("**Correlation Analysis:**\n\nCorrelation matrix computed for 2 numeric columns.\n\n**Strong Correlations (|r| > 0.5):**\n- a & b: -1.000\n",
           some [Chart.heatmap "Correlation Heatmap"]) := by
  refine ⟨?_, ?_, fun n => ⟨idxPairs_pairwise n, idxPairs_mem_lt n⟩, ?_, anti_corrVal, ?_⟩
  · intro df h
    simp only [get_correlation_analysis]
    by_cases he : (numericCols df).isEmpty = true
    · rw [if_pos he]
      exact ⟨rfl, Or.inl rfl⟩
    · rw [if_neg he, if_pos h]
      exact ⟨rfl, Or.inr rfl⟩
  · intro df h
    simp only [get_correlation_analysis]
    rw [if_neg (by intro hh; rw [List.isEmpty_iff] at hh; rw [hh] at h; simp at h),
        if_neg (by omega)]
  · intro df h hp
    simp only [get_correlation_analysis]
    rw [if_neg (by intro hh; rw [List.isEmpty_iff] at hh; rw [hh] at h; simp at h),
        if_neg (by omega), hp]
    have hemp : ([] : List (String × String × ℝ)).isEmpty = true := rfl
    rw [if_pos hemp, String.append_assoc]
    congr 1
  · have hstep : corrPairAt (numericCols dfAnti) (0, 1) = some ("a", "b", (-1:ℝ)) := by
      have hg0 : (numericCols dfAnti).getD 0 ("", [])
          = ("a", [some (1:ℚ), some 2, some 3]) := by decide
      have hg1 : (numericCols dfAnti).getD 1 ("", [])
          = ("b", [some (3:ℚ), some 2, some 1]) := by decide
      simp only [corrPairAt, hg0, hg1, anti_corrVal]
      rw [if_pos (by rw [abs_neg, abs_one]; norm_num)]
    have hpairs : highCorrPairs dfAnti = [("a", "b", (-1:ℝ))] := by
      simp only [highCorrPairs]
      rw [show idxPairs (numericCols dfAnti).length = [(0, 1)] from by decide]
      rw [List.filterMap_cons, hstep, List.filterMap_nil]
    simp only [get_correlation_analysis]
    rw [if_neg (by decide), if_neg (by decide), hpairs]
    rw [if_neg (by decide)]
    simp only [List.map_cons, List.map_nil, fmt3R_negOne]
    decide

/-- Witness for C6: the insufficient-columns case at a one-column
dataset and the heatmap attachment at the two-column dataset. -/
theorem C6_correlation_analysis_witness :
    ((numericCols dfOneNumeric).length < 2
      ∧ ((get_correlation_analysis dfOneNumeric).2 = none
          ∧ ((get_correlation_analysis dfOneNumeric).1
                = "No numeric columns found for correlation analysis."
              ∨ (get_correlation_analysis dfOneNumeric).1
                = "Need at least 2 numeric columns for correlation analysis.")))
    ∧ (2 ≤ (numericCols dfAnti).length
        ∧ (get_correlation_analysis dfAnti).2 = some [Chart.heatmap "Correlation Heatmap"]) :=
  ⟨⟨by decide, C6_correlation_analysis.1 dfOneNumeric (by decide)⟩,
   ⟨by decide, C6_correlation_analysis.2.1 dfAnti (by decide)⟩⟩

/-- C4: counterexample — the claim says a question containing a
literal column name is dispatched to ColumnLookup and "tell me about
score" yields the per-column statistics plus a distribution chart. The
dispatcher only tests the keywords `column`, `feature`, `variable`:
"tell me about score" (on a dataset with numeric column `score`)
matches none of them and falls through to the General branch, whose
result carries no chart and no Median line. -/
theorem C4_literal_column_counterexample :
    classify "tell me about score" = .general
    ∧ analyze_question dfUserScore "tell me about score"
        = .ok (general_analysis dfUserScore "tell me about score")
    ∧ (general_analysis dfUserScore "tell me about score").2 = none
    ∧ substrB "Median" (general_analysis dfUserScore "tell me about score").1 = false :=
  ⟨by decide, by decide, by decide, by decide⟩

/-- C4 (amended): a question is dispatched to ColumnLookup exactly when
it fails the nine earlier keyword checks and contains `column`,
`feature` or `variable` — a literal column name alone does not trigger
the branch; inside it every mentioned column is reported.  The question
"tell me about the score variable" (keyword `variable`) on the numeric
column `score` = [10, 20, 30] reports mean 20.00, median 20.00,
std 10.00, min 10.00, max 30.00 and one distribution chart for
`score`. -/
theorem C4_column_lookup_amended :
    (∀ q : String, classify q = .columnLookup ↔
        (kwAny maxKeywords (lowerStr q) = false ∧ kwAny minKeywords (lowerStr q) = false
          ∧ kwAny avgKeywords (lowerStr q) = false ∧ kwAny sumKeywords (lowerStr q) = false
          ∧ kwAny countKeywords (lowerStr q) = false ∧ kwAny statKeywords (lowerStr q) = false
          ∧ kwAny infoKeywords (lowerStr q) = false
          ∧ kwAny missingKeywords (lowerStr q) = false
          ∧ kwAny corrKeywords (lowerStr q) = false
          ∧ kwAny columnKeywords (lowerStr q) = true))
    ∧ analyze_question dfUserScore "tell me about the score variable"
        = .ok ("**Analysis for columns: score**\n\n**score** (dtype: int64):\n- Unique values: 3\n- Missing values: 0\n- Mean: 20.00\n- Median: 20.00\n- Std: 10.00\n- Min: 10.00\n- Max: 30.00\n\n",
               some [Chart.histogram "score" "Distribution of score"]) := by
  constructor
  · intro q
    simp only [classify]
    split_ifs <;> simp_all
  · calc analyze_question dfUserScore "tell me about the score variable"
        = .ok ("**Analysis for columns: score**\n\n**score** (dtype: int64):\n- Unique values: 3\n- Missing values: 0\n- Mean: "
            ++ fmt2Opt (meanQ exVals) ++ "\n" ++ "- Median: " ++ fmt2Opt (medianQ exVals)
            ++ "\n" ++ "- Std: " ++ fmt2ROpt (stdR exVals) ++ "\n" ++ "- Min: "
            ++ fmt2Opt (colMin exVals) ++ "\n" ++ "- Max: " ++ fmt2Opt (colMax exVals)
            ++ "\n\n",
            some [Chart.histogram "score" "Distribution of score"]) := by rfl
      _ = .ok ("**Analysis for columns: score**\n\n**score** (dtype: int64):\n- Unique values: 3\n- Missing values: 0\n- Mean: 20.00\n- Median: 20.00\n- Std: 10.00\n- Min: 10.00\n- Max: 30.00\n\n",
            some [Chart.histogram "score" "Distribution of score"]) := by
          rw [exVals_fmt_mean, exVals_fmt_median, exVals_fmt_std, exVals_fmt_min,
              exVals_fmt_max]
          rfl

/-- Witness for C4 (amended): "show the score variable" satisfies the
right-hand side of the dispatch characterisation, hence is classified
ColumnLookup. -/
theorem C4_column_lookup_amended_witness :
    classify "show the score variable" = .columnLookup :=
  (C4_column_lookup_amended.1 "show the score variable").mpr
    ⟨by decide, by decide, by decide, by decide, by decide, by decide, by decide, by decide,
     by decide, by decide⟩

end CSVApp
